import Mathlib

/-!
Verification development for the GTFS service-hours calculator
(src/main.py).  The Python source is shallowly embedded below:

* pure helpers (`parse_gtfs_time`) become Lean functions over
  `Option String` / integers;
* pandas DataFrames become lists of typed rows; a table-level flag
  records the dtype state of columns that the code rewrites in place
  (datetime conversion of calendar start/end dates, the derived
  `date_str` column of calendar_dates), so that in-place column
  mutation is visible as a change of the table value threaded through
  each call;
* dates are proleptic-Gregorian day numbers (rata die, 0001-01-01 = 1);
  `pd.Timestamp` / `datetime` values are such numbers, and string
  formatting/parsing of `YYYYMMDD` is modelled concretely;
* Python floats are modelled as exact rationals (all quantities here are
  integer second counts divided by 3600).

Columns that the code only reads are modelled as always present;
a DataFrame that lacks such a column behaves in every code path used
here exactly like one whose column is entirely null, and is represented
that way (all-`none` column).
-/

/-- Python `str.split(sep)` for a one-character separator: splits on every
occurrence and keeps empty pieces, so the result list is always nonempty. -/
def splitCh (c : Char) : List Char → List (List Char)
  | [] => [[]]
  | x :: xs =>
    if x = c then [] :: splitCh c xs
    else
      match splitCh c xs with
      | [] => [[x]]
      | r :: rs => (x :: r) :: rs

/-- Digit run as accepted by Python `int(...)`: one or more decimal digits,
with single underscores allowed between digits (no leading, trailing or
doubled underscore).  Accumulates the value. -/
def pyDigits : ℕ → List Char → Option ℕ
  | acc, [] => some acc
  | acc, '_' :: d :: rest =>
    if d.isDigit then pyDigits (10 * acc + (d.toNat - 48)) rest else none
  | _, ['_'] => none
  | acc, d :: rest =>
    if d.isDigit then pyDigits (10 * acc + (d.toNat - 48)) rest else none

/-- Python `int(s)` on a string: strips surrounding whitespace, accepts an
optional single sign, then a digit run; any other input raises ValueError,
modelled as `none`. -/
def pyInt? (s : List Char) : Option ℤ :=
  let t := (s.dropWhile Char.isWhitespace).reverse.dropWhile Char.isWhitespace |>.reverse
  match t with
  | '-' :: d :: rest =>
    if d.isDigit then (pyDigits (d.toNat - 48) rest).map (fun n => -(n : ℤ)) else none
  | '+' :: d :: rest =>
    if d.isDigit then (pyDigits (d.toNat - 48) rest).map (fun n => (n : ℤ)) else none
  | d :: rest =>
    if d.isDigit then (pyDigits (d.toNat - 48) rest).map (fun n => (n : ℤ)) else none
  | [] => none

/-- Embedding of `parse_gtfs_time` (src/main.py:33).  A missing value
(`pd.isna`) gives `None`; otherwise the string is split on a colon and the
three fields are converted with `int`; any ValueError (wrong field count,
non-integer component) is caught and gives `None`.  The timedelta result is
represented by its total number of seconds. -/
def parse_gtfs_time (t : Option String) : Option ℤ :=
  match t with
  | none => none
  | some s =>
    match splitCh ':' s.data with
    | [h, m, sec] =>
      match pyInt? h, pyInt? m, pyInt? sec with
      | some hv, some mv, some sv => some (3600 * hv + 60 * mv + sv)
      | _, _, _ => none
    | _ => none

/-- Gregorian leap year. -/
def isLeap (y : ℕ) : Bool :=
  y % 4 == 0 && (y % 100 != 0 || y % 400 == 0)

/-- Number of days in a month (1-12) of year `y`. -/
def daysInMonth (y m : ℕ) : ℕ :=
  if m = 2 then (if isLeap y then 29 else 28)
  else if m = 4 ∨ m = 6 ∨ m = 9 ∨ m = 11 then 30
  else 31

/-- Days in year `y` strictly before month `m`. -/
def monthDaysBefore (y m : ℕ) : ℕ :=
  let base :=
    match m with
    | 1 => 0 | 2 => 31 | 3 => 59 | 4 => 90 | 5 => 120 | 6 => 151
    | 7 => 181 | 8 => 212 | 9 => 243 | 10 => 273 | 11 => 304 | _ => 334
  if 3 ≤ m ∧ isLeap y then base + 1 else base

/-- Rata die day number of a Gregorian date (0001-01-01 is day 1). -/
def toRD (y m d : ℕ) : ℕ :=
  365 * (y - 1) + (y - 1) / 4 - (y - 1) / 100 + (y - 1) / 400 + monthDaysBefore y m + d

/-- Inverse of `toRD`: the Gregorian (year, month, day) of a rata die
day number (valid for `1 ≤ n`). -/
def rdToCivil (n : ℕ) : ℕ × ℕ × ℕ :=
  let z := n + 305
  let era := z / 146097
  let doe := z % 146097
  let yoe := (doe - doe / 1460 + doe / 36524 - doe / 146096) / 365
  let doy := doe - (365 * yoe + yoe / 4 - yoe / 100)
  let mp := (5 * doy + 2) / 153
  let d := doy - (153 * mp + 2) / 5 + 1
  let m := if mp < 10 then mp + 3 else mp - 9
  let y := yoe + era * 400 + (if m ≤ 2 then 1 else 0)
  (y, m, d)

/-- Character for a decimal digit. -/
def digitChar (n : ℕ) : Char := Char.ofNat (48 + n % 10)

/-- Zero-padded 2-digit decimal rendering. -/
def pad2 (n : ℕ) : List Char := [digitChar (n / 10), digitChar n]

/-- Zero-padded 4-digit decimal rendering. -/
def pad4 (n : ℕ) : List Char :=
  [digitChar (n / 1000), digitChar (n / 100), digitChar (n / 10), digitChar n]

/-- `strftime("%Y%m%d")` of a day number. -/
def formatYYYYMMDD (n : ℕ) : String :=
  let c := rdToCivil n
  String.mk (pad4 c.1 ++ pad2 c.2.1 ++ pad2 c.2.2)

/-- Smallest day representable as a (midnight) `pd.Timestamp`. -/
def tsMinRD : ℕ := toRD 1677 9 22

/-- Largest day representable as a (midnight) `pd.Timestamp`. -/
def tsMaxRD : ℕ := toRD 2262 4 11

/-- Embedding of `pd.to_datetime(s, format="%Y%m%d", errors="coerce")` on one
string cell, for the canonical 8-digit `YYYYMMDD` form the feed carries: the
year, month and day must form a valid Gregorian date inside the
`pd.Timestamp` range, otherwise the cell is coerced to `NaT` (`none`). -/
def parseDate8? (s : List Char) : Option ℕ :=
  match s with
  | [a, b, c, d, e, f, g, h] =>
    if (a.isDigit && b.isDigit && c.isDigit && d.isDigit &&
        e.isDigit && f.isDigit && g.isDigit && h.isDigit) then
      let y := 1000 * (a.toNat - 48) + 100 * (b.toNat - 48) + 10 * (c.toNat - 48) + (d.toNat - 48)
      let m := 10 * (e.toNat - 48) + (f.toNat - 48)
      let dd := 10 * (g.toNat - 48) + (h.toNat - 48)
      if 1 ≤ m ∧ m ≤ 12 ∧ 1 ≤ dd ∧ dd ≤ daysInMonth y m then
        let n := toRD y m dd
        if tsMinRD ≤ n ∧ n ≤ tsMaxRD then some n else none
      else none
    else none
  | _ => none

/-- Row of `calendar.txt` as read with `dtype=str`: every cell is text, a
missing cell is `none` (NaN).  The raw `start_date` / `end_date` strings are
kept; whether the column has already been rewritten in place to datetime
dtype is recorded on the table (`Calendar.datesParsed`), and the datetime
values themselves are recovered with `parseDate8?` (converting never changes
which values the comparisons see, only the column dtype). -/
structure CalRow where
  service_id : String
  monday : Option String
  tuesday : Option String
  wednesday : Option String
  thursday : Option String
  friday : Option String
  saturday : Option String
  sunday : Option String
  start_date : Option String
  end_date : Option String
deriving DecidableEq, Repr

/-- The `calendar` DataFrame: its rows plus the dtype state of the
`start_date` / `end_date` columns (false = raw strings, true = converted in
place by `pd.to_datetime`). -/
structure Calendar where
  rows : List CalRow
  datesParsed : Bool
deriving DecidableEq, Repr

/-- Row of `calendar_dates.txt` (`dtype=str`). -/
structure CDRow where
  service_id : String
  date : Option String
  exception_type : Option String
deriving DecidableEq, Repr

/-- The `calendar_dates` DataFrame: its rows plus whether the derived
`date_str` column has been added in place by `get_active_services_on_date`.
The `date_str` values are recovered with `cdDateStr` (`astype(str)`, which
renders NaN as the string "nan"). -/
structure CalendarDates where
  rows : List CDRow
  hasDateStr : Bool
deriving DecidableEq, Repr

/-- Row of `trips.txt` (`dtype=str`); `block_id` is optional/nullable. -/
structure TripRow where
  trip_id : String
  service_id : String
  block_id : Option String
deriving DecidableEq, Repr

/-- Row of `stop_times.txt` (`dtype=str`). -/
structure StRow where
  trip_id : String
  arrival_time : Option String
  departure_time : Option String
deriving DecidableEq, Repr

/-- The table set extracted from the downloaded zip: `none` means the file
is absent from the archive. -/
structure GtfsData where
  calendar : Option Calendar
  calendar_dates : Option CalendarDates
  trips : Option (List TripRow)
  stop_times : Option (List StRow)
deriving DecidableEq, Repr

/-- The weekday column selected by `target_date.strftime("%A").lower()`,
indexed 0 = monday .. 6 = sunday. -/
def weekdayFlag (r : CalRow) (i : ℕ) : Option String :=
  match i with
  | 0 => r.monday
  | 1 => r.tuesday
  | 2 => r.wednesday
  | 3 => r.thursday
  | 4 => r.friday
  | 5 => r.saturday
  | _ => r.sunday

/-- Weekday column index of a day number (rata die day 1, 0001-01-01, is a
Monday in the proleptic Gregorian calendar). -/
def weekdayIdx (n : ℕ) : ℕ := (n + 6) % 7

/-- Parsed `start_date` cell of a calendar row (NaT for a missing or
unparsable cell). -/
def calStart? (r : CalRow) : Option ℕ :=
  match r.start_date with
  | some s => parseDate8? s.data
  | none => none

/-- Parsed `end_date` cell of a calendar row. -/
def calEnd? (r : CalRow) : Option ℕ :=
  match r.end_date with
  | some s => parseDate8? s.data
  | none => none

/-- Pandas comparison `column <= target` on a datetime cell: `NaT` compares
false. -/
def dateLE (o : Option ℕ) (t : ℕ) : Bool :=
  match o with
  | some s => decide (s ≤ t)
  | none => false

/-- Pandas comparison `column >= target` on a datetime cell: `NaT` compares
false. -/
def dateGE (o : Option ℕ) (t : ℕ) : Bool :=
  match o with
  | some e => decide (t ≤ e)
  | none => false

/-- The `date_str` value derived from the raw `date` cell by
`astype(str)`: NaN prints as "nan". -/
def cdDateStr (r : CDRow) : String :=
  match r.date with
  | some s => s
  | none => "nan"

/-- The service-id list computed by `get_active_services_on_date`
(src/main.py:43-84).  The three Python sets (base, added, removed) are
combined as `(base | added) - removed`; the returned list enumerates that
set (only membership and emptiness of the result are ever used by the
caller).  Only row data flows in: the in-place dtype normalizations do not
change the values the filters compare. -/
def activeOn (t : ℕ) (calRows : List CalRow) (cdRows : List CDRow) : List String :=
  let widx := weekdayIdx t
  let tstr := formatYYYYMMDD t
  let base :=
    (calRows.filter (fun r =>
      (weekdayFlag r widx == some "1") &&
      dateLE (calStart? r) t &&
      dateGE (calEnd? r) t)).map (fun r => r.service_id)
  let added :=
    (cdRows.filter (fun r =>
      (cdDateStr r == tstr) && (r.exception_type == some "1"))).map (fun r => r.service_id)
  let removed :=
    (cdRows.filter (fun r =>
      (cdDateStr r == tstr) && (r.exception_type == some "2"))).map (fun r => r.service_id)
  ((base ++ added).dedup).filter (fun s => decide (s ∉ removed))

/-- In-place effect of src/main.py:52-56 on the caller-owned `calendar`
frame: for a nonempty table the `start_date` / `end_date` columns are
rewritten to datetime dtype (a no-op if already converted). -/
def calUpd (cal : Calendar) : Calendar :=
  if cal.rows.isEmpty then cal else { cal with datesParsed := true }

/-- In-place effect of src/main.py:67-71 on the caller-owned
`calendar_dates` frame: for a nonempty table a derived `date_str` column is
written into it (recomputed, with the same values, on every call). -/
def cdUpd (cd : CalendarDates) : CalendarDates :=
  if cd.rows.isEmpty then cd else { cd with hasDateStr := true }

/-- Embedding of `get_active_services_on_date` (src/main.py:43-84).  The
result is the active service-id list together with the state of the two
caller-supplied tables after the call (the function normalizes their
columns in place). -/
def get_active_services_on_date (t : ℕ) (cal : Calendar) (cd : CalendarDates) :
    List String × Calendar × CalendarDates :=
  (activeOn t cal.rows cd.rows, calUpd cal, cdUpd cd)

/-- A row of the `merged` frame (src/main.py:149): trip columns joined with
stop-time columns on `trip_id`. -/
structure PreRow where
  trip_id : String
  block_id : Option String
  arrival_time : Option String
  departure_time : Option String
deriving DecidableEq, Repr

/-- A merged row after the two time columns have been parsed and the rows
with a failed parse dropped (src/main.py:152-154). -/
structure MergedRow where
  trip_id : String
  block_id : Option String
  arrival_td : ℤ
  departure_td : ℤ
deriving DecidableEq, Repr

/-- Inner join `trips_on_date.merge(stop_times, on="trip_id")`
(src/main.py:149): each left row paired with every matching right row, in
order. -/
def mergedRows (tod : List TripRow) (st : List StRow) : List PreRow :=
  (tod.map (fun tr =>
    (st.filter (fun s => s.trip_id == tr.trip_id)).map (fun s =>
      { trip_id := tr.trip_id
        block_id := tr.block_id
        arrival_time := s.arrival_time
        departure_time := s.departure_time }))).flatten

/-- Lines 152-154: parse both time columns with `parse_gtfs_time` and drop
(`dropna` on the two derived columns) every row where either parse failed. -/
def parsedRows (l : List PreRow) : List MergedRow :=
  l.filterMap (fun r =>
    match parse_gtfs_time r.arrival_time, parse_gtfs_time r.departure_time with
    | some a, some d =>
      some { trip_id := r.trip_id, block_id := r.block_id, arrival_td := a, departure_td := d }
    | _, _ => none)

/-- Least element of an integer list, `none` for the empty list (the
pandas `.min()` of an empty or all-null column is null). -/
def listMin? : List ℤ → Option ℤ
  | [] => none
  | x :: xs => some (xs.foldl (fun a b => if b < a then b else a) x)

/-- Greatest element of an integer list, `none` for the empty list. -/
def listMax? : List ℤ → Option ℤ
  | [] => none
  | x :: xs => some (xs.foldl (fun a b => if a < b then b else a) x)

/-- Hours contributed by one group (src/main.py:159-162 and 167-170):
`max(arrival) - min(departure)` converted to hours, added only when the
difference is strictly positive.  The `pd.notnull` guards correspond to the
`none` cases of `listMin?` / `listMax?`. -/
def spanContribution (grp : List MergedRow) : ℚ :=
  match listMin? (grp.map (fun r => r.departure_td)),
        listMax? (grp.map (fun r => r.arrival_td)) with
  | some mn, some mx => if mn < mx then ((mx - mn : ℤ) : ℚ) / 3600 else 0
  | _, _ => 0

/-- `merged.groupby("trip_id")` aggregation (src/main.py:158-162): one group
per distinct trip id. -/
def tripHours (rows : List MergedRow) : ℚ :=
  (((rows.map (fun r => r.trip_id)).dedup).map (fun tid =>
    spanContribution (rows.filter (fun r => r.trip_id == tid)))).sum

/-- `merged.groupby("block_id")` aggregation (src/main.py:165-170): one
group per distinct non-null block id; pandas groupby drops rows whose group
key is null, so null-block rows appear in no group. -/
def blockHours (rows : List MergedRow) : ℚ :=
  (((rows.filterMap (fun r => r.block_id)).dedup).map (fun bid =>
    spanContribution (rows.filter (fun r => r.block_id == some bid)))).sum

/-- Grouping-mode dispatch of src/main.py:157: group per trip when no
surviving row has a non-null `block_id` (which also covers the frame
lacking the column altogether), otherwise group per block. -/
def groupedHours (rows : List MergedRow) : ℚ :=
  if rows.all (fun r => r.block_id == none) then tripHours rows else blockHours rows

/-- Hours contributed by one date of the range (the body of the loop at
src/main.py:142-170, after `get_active_services_on_date`): each `continue`
contributes 0. -/
def perDateHours (trips : List TripRow) (st1 : List StRow) (active : List String) : ℚ :=
  if active.isEmpty then 0
  else
    let tod := trips.filter (fun tr => active.contains tr.service_id)
    if tod.isEmpty then 0
    else
      let merged := mergedRows tod st1
      if merged.isEmpty then 0
      else
        let rows := parsedRows merged
        if rows.isEmpty then 0 else groupedHours rows

/-- One iteration of the date loop: resolve the active services (updating
the shared `calendar` / `calendar_dates` frames in place) and accumulate
that date's hours. -/
def computeStep (trips : List TripRow) (st1 : List StRow)
    (acc : ℚ × Calendar × CalendarDates) (d : ℕ) : ℚ × Calendar × CalendarDates :=
  let r := get_active_services_on_date d acc.2.1 acc.2.2
  (acc.1 + perDateHours trips st1 r.1, r.2.1, r.2.2)

/-- `pd.date_range(start, end)`: every day from `sd` to `ed` inclusive,
empty when `sd > ed`. -/
def dateRange (sd ed : ℕ) : List ℕ := List.range' sd (ed + 1 - sd)

/-- Line 133-134 on one stop-time row: `arrival_time` is filled from
`departure_time` and then `departure_time` from the (already filled)
`arrival_time`. -/
def fillnaRow (s : StRow) : StRow :=
  let a :=
    match s.arrival_time with
    | some v => some v
    | none => s.departure_time
  let d :=
    match s.departure_time with
    | some v => some v
    | none => a
  { s with arrival_time := a, departure_time := d }

/-- The empty DataFrame substituted for a missing `calendar.txt`
(src/main.py:116): no rows, object-dtype date columns. -/
def emptyCalendar : Calendar := { rows := [], datesParsed := false }

/-- The empty DataFrame substituted for a missing `calendar_dates.txt`
(src/main.py:110). -/
def emptyCalendarDates : CalendarDates := { rows := [], hasDateStr := false }

/-- The required-file validation of src/main.py:107-124: `calendar_dates`
defaults to an empty frame; `calendar` may be missing or empty only when
`calendar_dates` has rows (it is then replaced by an empty frame); missing
or empty `trips` or `stop_times` aborts.  `none` is the branch in which the
Python code prints an error and returns the number 0.0. -/
def requiredCheck (g : GtfsData) :
    Option (Calendar × List TripRow × List StRow × CalendarDates) :=
  let cd0 :=
    match g.calendar_dates with
    | some cd => cd
    | none => emptyCalendarDates
  let calOpt :=
    match g.calendar with
    | some cal =>
      if cal.rows.isEmpty then
        (if cd0.rows.isEmpty then none else some emptyCalendar)
      else some cal
    | none => if cd0.rows.isEmpty then none else some emptyCalendar
  match calOpt, g.trips, g.stop_times with
  | some cal, some trips, some st =>
    if trips.isEmpty || st.isEmpty then none else some (cal, trips, st, cd0)
  | _, _, _ => none

/-- Embedding of the core of `calculate_service_hours_from_url`
(src/main.py:107-172), from the point where the tables have been read out
of the archive: validate the required tables (any failure returns 0.0),
normalize the calendar date columns and fill the stop-time columns once,
then fold the per-date computation over the inclusive date range.  Dates
are day numbers (the `%Y-%m-%d` strings of the Python signature already
parsed). -/
def calculate_service_hours (g : GtfsData) (sd ed : ℕ) : ℚ :=
  match requiredCheck g with
  | none => 0
  | some (cal, trips, st, cd0) =>
    let cal1 : Calendar := { cal with datesParsed := true }
    let st1 := st.map fillnaRow
    ((dateRange sd ed).foldl (computeStep trips st1) (0, cal1, cd0)).1

/-- The full `calculate_service_hours_from_url` as seen by its caller: the
download (out of the core) either fails — the distinguished `None` result,
which the endpoint maps to an error response — or produces the table set,
after which the core always returns a number. -/
def calculate_service_hours_from_url (download : Option GtfsData) (sd ed : ℕ) : Option ℚ :=
  match download with
  | none => none
  | some g => some (calculate_service_hours g sd ed)

/-- A calendar row for service S1 running every day of 2024-01. -/
def calRowS1 : CalRow :=
  { service_id := "S1", monday := some "1", tuesday := some "1",
    wednesday := some "1", thursday := some "1", friday := some "1",
    saturday := some "1", sunday := some "1",
    start_date := some "20240101", end_date := some "20240131" }

/-- The worked example of the spec: two trips sharing block B1, spanning
08:00:00 to 09:00:00 on 2024-01-02. -/
def gExample : GtfsData :=
  { calendar := some { rows := [calRowS1], datesParsed := false }
    calendar_dates := none
    trips := some
      [ { trip_id := "T1", service_id := "S1", block_id := some "B1" },
        { trip_id := "T2", service_id := "S1", block_id := some "B1" } ]
    stop_times := some
      [ { trip_id := "T1", arrival_time := some "08:30:00", departure_time := some "08:00:00" },
        { trip_id := "T2", arrival_time := some "09:00:00", departure_time := some "08:30:00" } ] }

/-- Claim-side predicate (wording of C3): the weekly-pattern base set —
rows whose weekday flag for the date is true (the text flag "1") and whose
inclusive validity range, as parsed from the date columns, contains the
date. -/
def specBaseActive (sid : String) (t : ℕ) (cal : Calendar) : Prop :=
  ∃ r ∈ cal.rows, r.service_id = sid ∧ weekdayFlag r (weekdayIdx t) = some "1" ∧
    ∃ sd ed, calStart? r = some sd ∧ calEnd? r = some ed ∧ sd ≤ t ∧ t ≤ ed

/-- Claim-side predicate (wording of C3): services with an ADD exception
(`exception_type` "1") dated exactly the target date. -/
def specAddedOn (sid : String) (t : ℕ) (cd : CalendarDates) : Prop :=
  ∃ r ∈ cd.rows, r.service_id = sid ∧ cdDateStr r = formatYYYYMMDD t ∧
    r.exception_type = some "1"

/-- Claim-side predicate (wording of C3): services with a REMOVE exception
(`exception_type` "2") dated exactly the target date. -/
def specRemovedOn (sid : String) (t : ℕ) (cd : CalendarDates) : Prop :=
  ∃ r ∈ cd.rows, r.service_id = sid ∧ cdDateStr r = formatYYYYMMDD t ∧
    r.exception_type = some "2"

/-- Claim-side predicate (wording of C1): the trips table or the stop_times
table is absent or empty, or the calendar table is absent or empty while no
calendar_dates exceptions exist. -/
def specRequiredMissing (g : GtfsData) : Bool :=
  (match g.trips with | none => true | some l => l.isEmpty) ||
  (match g.stop_times with | none => true | some l => l.isEmpty) ||
  ((match g.calendar with | none => true | some c => c.rows.isEmpty) &&
   (match g.calendar_dates with | none => true | some cd => cd.rows.isEmpty))

/-- Fixture for C1: a feed whose zip contains a calendar and stop times but
an empty trips table. -/
def gMissingTrips : GtfsData :=
  { calendar := some { rows := [calRowS1], datesParsed := false }
    calendar_dates := none
    trips := some []
    stop_times := some
      [ { trip_id := "T1", arrival_time := some "08:30:00", departure_time := some "08:00:00" } ] }

/-- Fixture for C2: a nonempty calendar with raw (string) date columns and a
nonempty calendar_dates without the derived date_str column. -/
def calFixture : Calendar := { rows := [calRowS1], datesParsed := false }

/-- Fixture for C2: one REMOVE exception row, date_str column not added. -/
def cdFixture : CalendarDates :=
  { rows := [{ service_id := "S1", date := some "20240103", exception_type := some "2" }],
    hasDateStr := false }

/-- Fixture for C5: a single blockless trip departing 23:50:00 and arriving
24:10:00 (post-midnight, hour field 24). -/
def gOvernight : GtfsData :=
  { calendar := some { rows := [calRowS1], datesParsed := false }
    calendar_dates := none
    trips := some [ { trip_id := "T1", service_id := "S1", block_id := none } ]
    stop_times := some
      [ { trip_id := "T1", arrival_time := some "24:10:00", departure_time := some "23:50:00" } ] }

/-- Fixture for C4: one blockless row next to one row with block B1, both
spanning 3600 s to 7200 s. -/
def rowsMixedBlocks : List MergedRow :=
  [ { trip_id := "T1", block_id := none, arrival_td := 7200, departure_td := 3600 },
    { trip_id := "T2", block_id := some "B1", arrival_td := 7200, departure_td := 3600 } ]

/-- Fixture for C8: a group whose latest arrival (0 s) precedes its earliest
departure (100 s). -/
def rowsNegativeSpan : List MergedRow :=
  [ { trip_id := "T1", block_id := none, arrival_td := 0, departure_td := 100 } ]

example : calculate_service_hours gExample (toRD 2024 1 2) (toRD 2024 1 2) = 1 := by
  with_unfolding_all rfl

example :
    (get_active_services_on_date (toRD 2024 1 2)
      { rows := [calRowS1], datesParsed := false }
      { rows := [], hasDateStr := false }).1 = ["S1"] := by decide

example :
    (get_active_services_on_date (toRD 2024 1 2)
      { rows := [calRowS1], datesParsed := false }
      { rows := [{ service_id := "S1", date := some "20240102",
                   exception_type := some "2" }], hasDateStr := false }).1 = [] := by
  decide
example : rdToCivil (toRD 2000 2 29) = (2000, 2, 29) := by decide
example : rdToCivil (toRD 1999 12 31) = (1999, 12, 31) := by decide
example : formatYYYYMMDD (toRD 2024 1 2) = "20240102" := by decide
example : parse_gtfs_time (some "24:10:00") = some 87000 := by decide
example : parse_gtfs_time (some "8:5:0") = some 29100 := by decide
example : parse_gtfs_time (some "-1:00:00") = some (-3600) := by decide
example : parse_gtfs_time (some "1_0:0:0") = some 36000 := by decide
example : parse_gtfs_time (some "a:b:c") = none := by decide
example : parse_gtfs_time (some "10:00") = none := by decide
example : parseDate8? "20240101".data = some (toRD 2024 1 1) := by decide
example : parseDate8? "20241301".data = none := by decide

theorem calUpd_rows (cal : Calendar) : (calUpd cal).rows = cal.rows := by
  unfold calUpd
  split <;> rfl

theorem cdUpd_rows (cd : CalendarDates) : (cdUpd cd).rows = cd.rows := by
  unfold cdUpd
  split <;> rfl

theorem calUpd_idem (cal : Calendar) : calUpd (calUpd cal) = calUpd cal := by
  rcases cal with ⟨rows, p⟩
  by_cases h : rows.isEmpty <;> simp [calUpd, h]

theorem cdUpd_idem (cd : CalendarDates) : cdUpd (cdUpd cd) = cdUpd cd := by
  rcases cd with ⟨rows, p⟩
  by_cases h : rows.isEmpty <;> simp [cdUpd, h]

theorem dateLE_eq_true_iff (o : Option ℕ) (t : ℕ) :
    dateLE o t = true ↔ ∃ s, o = some s ∧ s ≤ t := by
  cases o <;> simp [dateLE]

theorem dateGE_eq_true_iff (o : Option ℕ) (t : ℕ) :
    dateGE o t = true ↔ ∃ e, o = some e ∧ t ≤ e := by
  cases o <;> simp [dateGE]

theorem mem_serviceList {α : Type} (l : List α) (p : α → Bool) (f : α → String) (s : String) :
    s ∈ (l.filter p).map f ↔ ∃ r, r ∈ l ∧ p r = true ∧ f r = s := by
  constructor
  · intro h
    rcases List.mem_map.mp h with ⟨r, hr, hf⟩
    rcases List.mem_filter.mp hr with ⟨hl, hp⟩
    exact ⟨r, hl, hp, hf⟩
  · rintro ⟨r, hl, hp, hf⟩
    exact List.mem_map.mpr ⟨r, List.mem_filter.mpr ⟨hl, hp⟩, hf⟩

theorem mem_base_iff (t : ℕ) (cal : Calendar) (sid : String) :
    sid ∈ ((cal.rows.filter (fun r =>
        (weekdayFlag r (weekdayIdx t) == some "1") &&
        dateLE (calStart? r) t &&
        dateGE (calEnd? r) t)).map (fun r => r.service_id))
      ↔ specBaseActive sid t cal := by
  rw [mem_serviceList]
  unfold specBaseActive
  simp only [Bool.and_eq_true, beq_iff_eq, dateLE_eq_true_iff, dateGE_eq_true_iff]
  constructor
  · rintro ⟨r, hl, ⟨⟨hw, ⟨sd, hsd, h1⟩⟩, ⟨ed, hed, h2⟩⟩, hf⟩
    exact ⟨r, hl, hf, hw, sd, ed, hsd, hed, h1, h2⟩
  · rintro ⟨r, hl, hf, hw, sd, ed, hsd, hed, h1, h2⟩
    exact ⟨r, hl, ⟨⟨hw, ⟨sd, hsd, h1⟩⟩, ⟨ed, hed, h2⟩⟩, hf⟩

theorem mem_added_iff (t : ℕ) (cd : CalendarDates) (sid : String) :
    sid ∈ ((cd.rows.filter (fun r =>
        (cdDateStr r == formatYYYYMMDD t) && (r.exception_type == some "1"))).map
        (fun r => r.service_id))
      ↔ specAddedOn sid t cd := by
  rw [mem_serviceList]
  unfold specAddedOn
  simp only [Bool.and_eq_true, beq_iff_eq]
  constructor
  · rintro ⟨r, hl, ⟨h1, h2⟩, hf⟩
    exact ⟨r, hl, hf, h1, h2⟩
  · rintro ⟨r, hl, hf, h1, h2⟩
    exact ⟨r, hl, ⟨h1, h2⟩, hf⟩

theorem mem_removed_iff (t : ℕ) (cd : CalendarDates) (sid : String) :
    sid ∈ ((cd.rows.filter (fun r =>
        (cdDateStr r == formatYYYYMMDD t) && (r.exception_type == some "2"))).map
        (fun r => r.service_id))
      ↔ specRemovedOn sid t cd := by
  rw [mem_serviceList]
  unfold specRemovedOn
  simp only [Bool.and_eq_true, beq_iff_eq]
  constructor
  · rintro ⟨r, hl, ⟨h1, h2⟩, hf⟩
    exact ⟨r, hl, hf, h1, h2⟩
  · rintro ⟨r, hl, hf, h1, h2⟩
    exact ⟨r, hl, ⟨h1, h2⟩, hf⟩

/-- C3: for every date and every pair of calendar and calendar_dates
tables, the resolver returns exactly (base set of weekly-pattern rows whose
weekday flag is "1" and whose inclusive start/end range contains the date,
union services with an ADD exception dated exactly that date) minus
services with a REMOVE exception dated exactly that date; in particular a
REMOVE exception wins over both the weekly pattern and an ADD exception. -/
theorem resolve_eq_base_union_added_minus_removed
    (t : ℕ) (cal : Calendar) (cd : CalendarDates) (sid : String) :
    sid ∈ (get_active_services_on_date t cal cd).1 ↔
      ((specBaseActive sid t cal ∨ specAddedOn sid t cd) ∧ ¬ specRemovedOn sid t cd) := by
  show sid ∈ activeOn t cal.rows cd.rows ↔ _
  unfold activeOn
  simp only [List.mem_filter, List.mem_dedup, List.mem_append, decide_eq_true_eq]
  rw [mem_base_iff, mem_added_iff, mem_removed_iff]

/-- C2 counterexample: a concrete invocation of the resolver on
caller-supplied tables returns them changed — the calendar start/end date
columns have been converted to datetime dtype in place and a derived
date_str column has been written into calendar_dates — refuting the claim
that caller-supplied tables are left unchanged with derived columns stored
only in separate structures. -/
theorem resolver_mutates_caller_tables :
    (get_active_services_on_date (toRD 2024 1 3) calFixture cdFixture).2.1 ≠ calFixture ∧
    (get_active_services_on_date (toRD 2024 1 3) calFixture cdFixture).2.2 ≠ cdFixture := by
  constructor <;> decide

/-- C2 amended: the resolver does write into the caller-supplied tables,
but only idempotent column normalizations — the row data of both tables is
preserved, and repeating the call on the updated tables returns the same
service list and the tables unchanged. -/
theorem resolver_mutation_is_idempotent_normalization
    (t : ℕ) (cal : Calendar) (cd : CalendarDates) :
    (get_active_services_on_date t cal cd).2.1.rows = cal.rows ∧
    (get_active_services_on_date t cal cd).2.2.rows = cd.rows ∧
    get_active_services_on_date t (get_active_services_on_date t cal cd).2.1
        (get_active_services_on_date t cal cd).2.2
      = get_active_services_on_date t cal cd := by
  refine ⟨calUpd_rows cal, cdUpd_rows cd, ?_⟩
  show (activeOn t (calUpd cal).rows (cdUpd cd).rows, calUpd (calUpd cal), cdUpd (cdUpd cd)) = _
  rw [calUpd_rows, cdUpd_rows, calUpd_idem, cdUpd_idem]
  rfl

theorem computeStep_eq (trips : List TripRow) (st1 : List StRow)
    (t : ℚ) (cal : Calendar) (cd : CalendarDates) (d : ℕ) :
    computeStep trips st1 (t, cal, cd) d
      = (t + perDateHours trips st1 (activeOn d cal.rows cd.rows), calUpd cal, cdUpd cd) := rfl

theorem foldl_computeStep_fst (trips : List TripRow) (st1 : List StRow) :
    ∀ (ds : List ℕ) (t : ℚ) (cal : Calendar) (cd : CalendarDates),
      (ds.foldl (computeStep trips st1) (t, cal, cd)).1
        = t + (ds.map (fun d => perDateHours trips st1 (activeOn d cal.rows cd.rows))).sum := by
  intro ds
  induction ds with
  | nil => intro t cal cd; simp
  | cons d ds ih =>
    intro t cal cd
    simp only [List.foldl_cons, List.map_cons, List.sum_cons]
    rw [computeStep_eq, ih, calUpd_rows, cdUpd_rows]
    ring

theorem dateRange_split (a b c : ℕ) (hab : a ≤ b) (hbc : b < c) :
    dateRange a c = dateRange a b ++ dateRange (b + 1) c := by
  unfold dateRange
  have h2 : c + 1 - a = (c - b) + (b + 1 - a) := by omega
  rw [h2, ← List.range'_append_1 a (b + 1 - a) (c - b),
    show a + (b + 1 - a) = b + 1 from by omega,
    show c - b = c + 1 - (b + 1) from by omega]

/-- C7: with the tables fixed, computing over a date range a..c splits
additively at any interior point: the total over a..c is the total over
a..b plus the total over (b+1)..c.  (Totals are modelled as exact
rationals.) -/
theorem compute_additive_over_date_split (g : GtfsData) (a b c : ℕ)
    (hab : a ≤ b) (hbc : b < c) :
    calculate_service_hours g a c
      = calculate_service_hours g a b + calculate_service_hours g (b + 1) c := by
  unfold calculate_service_hours
  cases hrc : requiredCheck g with
  | none => norm_num
  | some r =>
    obtain ⟨cal, trips, st, cd0⟩ := r
    simp only
    rw [foldl_computeStep_fst, foldl_computeStep_fst, foldl_computeStep_fst,
      dateRange_split a b c hab hbc, List.map_append, List.sum_append]
    ring

/-- C9: a request whose start date is strictly after its end date iterates
over an empty date range and returns exactly 0. -/
theorem compute_empty_range_zero (g : GtfsData) (sd ed : ℕ) (h : ed < sd) :
    calculate_service_hours g sd ed = 0 := by
  unfold calculate_service_hours
  cases hrc : requiredCheck g with
  | none => rfl
  | some r =>
    obtain ⟨cal, trips, st, cd0⟩ := r
    have hempty : dateRange sd ed = [] := by
      unfold dateRange
      rw [show ed + 1 - sd = 0 from by omega]
      rfl
    simp only [hempty, List.foldl_nil]

theorem spanContribution_nonneg (grp : List MergedRow) : 0 ≤ spanContribution grp := by
  unfold spanContribution
  cases hmn : listMin? (grp.map (fun r => r.departure_td)) with
  | none => simp
  | some mn =>
    cases hmx : listMax? (grp.map (fun r => r.arrival_td)) with
    | none => simp
    | some mx =>
      simp only
      split
      · next hlt =>
        apply div_nonneg _ (by norm_num)
        have : (0 : ℤ) ≤ mx - mn := by omega
        exact_mod_cast this
      · exact le_refl 0

theorem tripHours_nonneg (rows : List MergedRow) : 0 ≤ tripHours rows := by
  unfold tripHours
  apply List.sum_nonneg
  intro x hx
  rcases List.mem_map.mp hx with ⟨k, _, rfl⟩
  exact spanContribution_nonneg _

theorem blockHours_nonneg (rows : List MergedRow) : 0 ≤ blockHours rows := by
  unfold blockHours
  apply List.sum_nonneg
  intro x hx
  rcases List.mem_map.mp hx with ⟨k, _, rfl⟩
  exact spanContribution_nonneg _

theorem groupedHours_nonneg (rows : List MergedRow) : 0 ≤ groupedHours rows := by
  unfold groupedHours
  split
  · exact tripHours_nonneg rows
  · exact blockHours_nonneg rows

theorem perDateHours_nonneg (trips : List TripRow) (st1 : List StRow)
    (active : List String) : 0 ≤ perDateHours trips st1 active := by
  unfold perDateHours
  dsimp only
  repeat' split
  any_goals exact le_refl 0
  exact groupedHours_nonneg _

/-- C8: a group span is added only when strictly positive — a group whose
latest arrival does not exceed its earliest departure contributes 0 — and
consequently the total returned by the computation is always non-negative. -/
theorem span_discard_and_total_nonneg :
    (∀ (grp : List MergedRow) (mn mx : ℤ),
        listMin? (grp.map (fun r => r.departure_td)) = some mn →
        listMax? (grp.map (fun r => r.arrival_td)) = some mx →
        mx ≤ mn → spanContribution grp = 0) ∧
    (∀ (g : GtfsData) (sd ed : ℕ), 0 ≤ calculate_service_hours g sd ed) := by
  constructor
  · intro grp mn mx hmn hmx hle
    unfold spanContribution
    rw [hmn, hmx]
    simp only
    rw [if_neg (not_lt.mpr hle)]
  · intro g sd ed
    unfold calculate_service_hours
    cases hrc : requiredCheck g with
    | none => exact le_refl 0
    | some r =>
      obtain ⟨cal, trips, st, cd0⟩ := r
      simp only
      rw [foldl_computeStep_fst]
      rw [zero_add]
      apply List.sum_nonneg
      intro x hx
      rcases List.mem_map.mp hx with ⟨d, _, rfl⟩
      exact perDateHours_nonneg _ _ _

/-- Witness for C8 at concrete inputs: the concrete group whose span is
negative (arrival 0 s, departure 100 s) contributes exactly 0, and the
total over the worked example feed is non-negative. -/
theorem span_discard_and_total_nonneg_witness :
    spanContribution rowsNegativeSpan = 0 ∧
    0 ≤ calculate_service_hours gExample (toRD 2024 1 2) (toRD 2024 1 2) :=
  ⟨span_discard_and_total_nonneg.1 rowsNegativeSpan 100 0 (by decide) (by decide) (by decide),
   span_discard_and_total_nonneg.2 gExample (toRD 2024 1 2) (toRD 2024 1 2)⟩

theorem filterMap_block_filter (rows : List MergedRow) :
    (rows.filter (fun r => !(r.block_id == none))).filterMap (fun r => r.block_id)
      = rows.filterMap (fun r => r.block_id) := by
  induction rows with
  | nil => rfl
  | cons r l ih =>
    cases hb : r.block_id with
    | none => simpa [List.filter_cons, List.filterMap_cons, hb] using ih
    | some b => simpa [List.filter_cons, List.filterMap_cons, hb] using ih

theorem filter_block_key (rows : List MergedRow) (bid : String) :
    (rows.filter (fun r => !(r.block_id == none))).filter (fun r => r.block_id == some bid)
      = rows.filter (fun r => r.block_id == some bid) := by
  rw [List.filter_filter]
  apply List.filter_congr
  intro r _
  cases hb : r.block_id <;> simp [hb]

theorem blockHours_ignores_null_rows (rows : List MergedRow) :
    blockHours (rows.filter (fun r => !(r.block_id == none))) = blockHours rows := by
  unfold blockHours
  rw [filterMap_block_filter]
  apply congrArg
  apply List.map_congr_left
  intro bid _
  rw [filter_block_key]

/-- C4: in the per-date aggregation over the parsed joined rows, when no
row carries a non-null block identifier the rows are grouped per trip
identifier, each trip contributing its own span; otherwise rows are
grouped per block identifier, and rows whose block identifier is null
contribute nothing — the grouped total equals the total computed after
deleting them. -/
theorem grouping_by_block_or_trip (rows : List MergedRow) :
    (rows.all (fun r => r.block_id == none) = true →
      groupedHours rows
        = (((rows.map (fun r => r.trip_id)).dedup).map (fun tid =>
            spanContribution (rows.filter (fun r => r.trip_id == tid)))).sum) ∧
    (rows.all (fun r => r.block_id == none) = false →
      groupedHours rows = blockHours (rows.filter (fun r => !(r.block_id == none)))) := by
  constructor
  · intro h
    unfold groupedHours
    rw [if_pos h]
    rfl
  · intro h
    unfold groupedHours
    rw [if_neg (by simp [h])]
    exact (blockHours_ignores_null_rows rows).symm

/-- Witness for C4 at a concrete input: with one null-block row next to a
B1 row, block mode is selected and the null-block row contributes nothing. -/
theorem grouping_by_block_or_trip_witness :
    rowsMixedBlocks.all (fun r => r.block_id == none) = false ∧
    groupedHours rowsMixedBlocks
      = blockHours (rowsMixedBlocks.filter (fun r => !(r.block_id == none))) :=
  ⟨by decide, (grouping_by_block_or_trip rowsMixedBlocks).2 (by decide)⟩

/-- C5: the time parser keeps the raw magnitude of hour fields of 24 or
more (no wrapping modulo 24 hours), so the overnight group departing
23:50:00 and arriving 24:10:00 contributes a strictly positive span of
exactly 20 minutes (1/3 hour) to the total. -/
theorem overnight_span_counts_raw_magnitude :
    parse_gtfs_time (some "23:50:00") = some 85800 ∧
    parse_gtfs_time (some "24:10:00") = some 87000 ∧
    calculate_service_hours gOvernight (toRD 2024 1 2) (toRD 2024 1 2) = 1 / 3 ∧
    (0 : ℚ) < 1 / 3 := by
  refine ⟨by decide, by decide, by with_unfolding_all rfl, by norm_num⟩

/-- C1 counterexample: on a feed whose trips table is empty — a case the
claim says must abort with a distinguished MissingRequiredTable failure —
the code returns the plain numeric result 0.0 through the same channel as
any successful computation (the distinguished failure value None is
reserved for download errors). -/
theorem missing_table_yields_plain_numeric_result :
    specRequiredMissing gMissingTrips = true ∧
    calculate_service_hours_from_url (some gMissingTrips) (toRD 2024 1 2) (toRD 2024 1 2)
      = some 0 := by
  exact ⟨by decide, by with_unfolding_all rfl⟩

/-- C1 amended: whenever trips or stop_times is absent or empty, or
calendar is absent or empty while calendar_dates has no rows, the
computation does not fail: it logs and returns the numeric value 0.0. -/
theorem missing_required_tables_return_zero (g : GtfsData) (sd ed : ℕ)
    (h : specRequiredMissing g = true) : calculate_service_hours g sd ed = 0 := by
  have hrc : requiredCheck g = none := by
    obtain ⟨calt, cdt, tripst, stt⟩ := g
    rcases tripst with _ | trips <;> rcases stt with _ | st <;>
      rcases calt with _ | cal <;> rcases cdt with _ | cd <;>
      simp_all [specRequiredMissing, requiredCheck, emptyCalendar, emptyCalendarDates] <;>
      aesop
  unfold calculate_service_hours
  rw [hrc]

/-- Witness for C1 amended at a concrete input: the empty-trips feed
yields exactly 0. -/
theorem missing_required_tables_return_zero_witness :
    specRequiredMissing gMissingTrips = true ∧
    calculate_service_hours gMissingTrips (toRD 2024 1 2) (toRD 2024 1 2) = 0 :=
  ⟨by decide,
   missing_required_tables_return_zero gMissingTrips (toRD 2024 1 2) (toRD 2024 1 2) (by decide)⟩

/-- C6: the time parser maps a missing value to the missing result, maps a
malformed value — wrong field count or a non-integer component — to the
missing result (it is a total function, so it never raises), and the
aggregation uses only the rows on which both the arrival and the departure
parse succeeded: filtering the others away first changes nothing. -/
theorem parse_gtfs_time_some (s : String) :
    parse_gtfs_time (some s)
      = match splitCh ':' s.data with
        | [h, m, sec] =>
          match pyInt? h, pyInt? m, pyInt? sec with
          | some hv, some mv, some sv => some (3600 * hv + 60 * mv + sv)
          | _, _, _ => none
        | _ => none := rfl

theorem time_parse_missing_and_malformed :
    parse_gtfs_time none = none ∧
    (∀ s : String, (splitCh ':' s.data).length ≠ 3 → parse_gtfs_time (some s) = none) ∧
    (∀ (s : String) (a b c : List Char), splitCh ':' s.data = [a, b, c] →
        pyInt? a = none ∨ pyInt? b = none ∨ pyInt? c = none →
        parse_gtfs_time (some s) = none) ∧
    (∀ l : List PreRow,
        parsedRows l = parsedRows (l.filter (fun r =>
          (parse_gtfs_time r.arrival_time).isSome &&
          (parse_gtfs_time r.departure_time).isSome))) := by
  refine ⟨rfl, ?_, ?_, ?_⟩
  · intro s hlen
    rw [parse_gtfs_time_some]
    cases hs : splitCh ':' s.data with
    | nil => rfl
    | cons a l1 =>
      cases l1 with
      | nil => rfl
      | cons b l2 =>
        cases l2 with
        | nil => rfl
        | cons c l3 =>
          cases l3 with
          | nil =>
            rw [hs] at hlen
            simp at hlen
          | cons d l4 => rfl
  · intro s a b c hs hor
    rw [parse_gtfs_time_some, hs]
    show (match pyInt? a, pyInt? b, pyInt? c with
      | some hv, some mv, some sv => some (3600 * hv + 60 * mv + sv)
      | _, _, _ => none) = none
    rcases hor with h | h | h
    · rw [h]
    · cases ha : pyInt? a
      · rfl
      · rw [h]
    · cases ha : pyInt? a
      · rfl
      · cases hb : pyInt? b
        · rfl
        · rw [h]
  · intro l
    induction l with
    | nil => rfl
    | cons r l ih =>
      cases ha : parse_gtfs_time r.arrival_time <;>
        cases hd : parse_gtfs_time r.departure_time <;>
        simp [parsedRows, List.filter_cons, List.filterMap_cons, ha, hd] <;>
        exact ih

/-- Witness for C6 at concrete inputs: a missing value, a two-field value
and a value with non-integer components all parse to the missing result. -/
theorem time_parse_missing_and_malformed_witness :
    parse_gtfs_time none = none ∧
    parse_gtfs_time (some "10:00") = none ∧
    parse_gtfs_time (some "aa:bb:cc") = none :=
  ⟨time_parse_missing_and_malformed.1,
   time_parse_missing_and_malformed.2.1 "10:00" (by decide),
   time_parse_missing_and_malformed.2.2.1 "aa:bb:cc" "aa".data "bb".data "cc".data
     (by decide) (Or.inl (by decide))⟩

theorem splitCh_of_not_mem {c : Char} {xs : List Char} (h : c ∉ xs) :
    splitCh c xs = [xs] := by
  induction xs with
  | nil => rfl
  | cons x xs ih =>
    rw [List.mem_cons, not_or] at h
    obtain ⟨h1, h2⟩ := h
    have hx : ¬ x = c := fun he => h1 he.symm
    simp only [splitCh, if_neg hx, ih h2]

theorem splitCh_append {c : Char} {xs : List Char} (h : c ∉ xs) (ys : List Char) :
    splitCh c (xs ++ c :: ys) = xs :: splitCh c ys := by
  induction xs with
  | nil => simp [splitCh]
  | cons x xs ih =>
    rw [List.mem_cons, not_or] at h
    obtain ⟨h1, h2⟩ := h
    have hx : ¬ x = c := fun he => h1 he.symm
    simp only [List.cons_append, splitCh, if_neg hx, List.append_eq, ih h2]

/-- C10: the time parser accepts any string made of exactly three
colon-separated Python integer literals — not only zero-padded two-digit
fields, and including negative components — evaluating it as
3600 h + 60 m + s seconds. -/
theorem time_parse_accepts_three_integer_fields
    (a b c : List Char) (x y z : ℤ)
    (ha : ':' ∉ a) (hb : ':' ∉ b) (hc : ':' ∉ c)
    (hx : pyInt? a = some x) (hy : pyInt? b = some y) (hz : pyInt? c = some z) :
    parse_gtfs_time (some (String.mk (a ++ (':' :: (b ++ (':' :: c))))))
      = some (3600 * x + 60 * y + z) := by
  rw [parse_gtfs_time_some]
  show (match splitCh ':' (a ++ (':' :: (b ++ (':' :: c)))) with
    | [h, m, sec] =>
      match pyInt? h, pyInt? m, pyInt? sec with
      | some hv, some mv, some sv => some (3600 * hv + 60 * mv + sv)
      | _, _, _ => none
    | _ => none) = some (3600 * x + 60 * y + z)
  rw [splitCh_append ha, splitCh_append hb, splitCh_of_not_mem hc]
  show (match pyInt? a, pyInt? b, pyInt? c with
    | some hv, some mv, some sv => some (3600 * hv + 60 * mv + sv)
    | _, _, _ => none) = some (3600 * x + 60 * y + z)
  rw [hx, hy, hz]

/-- Witness for C10 at concrete inputs: the unpadded "8:5:0" parses to
8 h 5 min and "-1:00:00" parses to minus one hour. -/
theorem time_parse_accepts_three_integer_fields_witness :
    parse_gtfs_time (some "8:5:0") = some 29100 ∧
    parse_gtfs_time (some "-1:00:00") = some (-3600) := by
  constructor
  · have h := time_parse_accepts_three_integer_fields ['8'] ['5'] ['0'] 8 5 0
      (by decide) (by decide) (by decide) (by decide) (by decide) (by decide)
    simpa using h
  · have h := time_parse_accepts_three_integer_fields ['-', '1'] ['0', '0'] ['0', '0'] (-1) 0 0
      (by decide) (by decide) (by decide) (by decide) (by decide) (by decide)
    simpa using h

/-- Witness for C7 at concrete inputs: the worked example feed over
2024-01-02 .. 2024-01-05 split at 2024-01-03. -/
theorem compute_additive_over_date_split_witness :
    toRD 2024 1 2 ≤ toRD 2024 1 3 ∧ toRD 2024 1 3 < toRD 2024 1 5 ∧
    calculate_service_hours gExample (toRD 2024 1 2) (toRD 2024 1 5)
      = calculate_service_hours gExample (toRD 2024 1 2) (toRD 2024 1 3)
        + calculate_service_hours gExample (toRD 2024 1 3 + 1) (toRD 2024 1 5) :=
  ⟨by decide, by decide,
   compute_additive_over_date_split gExample (toRD 2024 1 2) (toRD 2024 1 3) (toRD 2024 1 5)
     (by decide) (by decide)⟩

/-- Witness for C9 at concrete inputs: day 5 to day 3 returns 0. -/
theorem compute_empty_range_zero_witness :
    (3 : ℕ) < 5 ∧ calculate_service_hours gExample 5 3 = 0 :=
  ⟨by decide, compute_empty_range_zero gExample 5 3 (by decide)⟩
